import Mathlib

/-!
Shallow embedding of `src/body.js` of the budgetdraw/node-fetch repository:
the Body abstraction (body sources, the byte-stream adapter, the consumption
protocol, clone-by-tee, content negotiation helpers and `writeToStream`),
together with theorems checking the natural-language specification against it.

Bytes are modelled as `Nat` values (< 256 in every reachable state; no
byte arithmetic occurs, so no wrap-around is modelled), byte buffers as
`List Nat`, and streams of chunks as `List (List Nat)`.  WHATWG readable
streams are mutable objects shared by reference in JavaScript, so they live
in an explicit heap (`Heap`) addressed by `StreamRef` indices; every stream
object carries its chunk list and its `locked` bit (`tee`, `pipeThrough`
and `getReader` lock the receiver).
-/

namespace NodeFetch

abbrev Bytes := List Nat

/-- UTF-8 encoding of one scalar value (model of `Buffer.from(string)`'s
per-character encoding; Lean `Char` is a Unicode scalar value, as are the
code points produced by well-formed JavaScript strings). -/
def utf8EncodeChar (c : Char) : List Nat :=
  let n := c.toNat
  if n < 0x80 then [n]
  else if n < 0x800 then
    [0xC0 + n / 0x40, 0x80 + n % 0x40]
  else if n < 0x10000 then
    [0xE0 + n / 0x1000, 0x80 + (n / 0x40) % 0x40, 0x80 + n % 0x40]
  else
    [0xF0 + n / 0x40000, 0x80 + (n / 0x1000) % 0x40, 0x80 + (n / 0x40) % 0x40, 0x80 + n % 0x40]

/-- UTF-8 encoding of a string: model of `Buffer.from(s)` for a string `s`. -/
def utf8Encode (s : String) : Bytes :=
  (s.data.map utf8EncodeChar).flatten

/-- Model of `Buffer.byteLength(s)`: the UTF-8 byte length. -/
def byteLength (s : String) : Nat :=
  (utf8Encode s).length

/-- One step of UTF-8 decoding: decode the first scalar value of the byte
list and return it with the remaining bytes.  Invalid sequences decode to
U+FFFD, mirroring `buffer.toString('utf8')`'s replacement behaviour. -/
def utf8DecodeStep : Bytes → Char × Bytes
  | [] => ('�', [])
  | b :: bs =>
    if b < 0x80 then
      (Char.ofNat b, bs)
    else if b < 0xC2 then ('�', bs)
    else if b < 0xE0 then
      match bs with
      | b1 :: bs1 =>
        if 0x80 ≤ b1 ∧ b1 < 0xC0 then (Char.ofNat ((b - 0xC0) * 0x40 + (b1 - 0x80)), bs1)
        else ('�', bs)
      | [] => ('�', [])
    else if b < 0xF0 then
      match bs with
      | b1 :: b2 :: bs2 =>
        if 0x80 ≤ b1 ∧ b1 < 0xC0 ∧ 0x80 ≤ b2 ∧ b2 < 0xC0 then
          let n := (b - 0xE0) * 0x1000 + (b1 - 0x80) * 0x40 + (b2 - 0x80)
          (if 0xD800 ≤ n ∧ n < 0xE000 then '�' else Char.ofNat n, bs2)
        else ('�', bs)
      | _ => ('�', [])
    else if b < 0xF5 then
      match bs with
      | b1 :: b2 :: b3 :: bs3 =>
        if 0x80 ≤ b1 ∧ b1 < 0xC0 ∧ 0x80 ≤ b2 ∧ b2 < 0xC0 ∧ 0x80 ≤ b3 ∧ b3 < 0xC0 then
          let n := (b - 0xF0) * 0x40000 + (b1 - 0x80) * 0x1000 + (b2 - 0x80) * 0x40 + (b3 - 0x80)
          (if n < 0x110000 then Char.ofNat n else '�', bs3)
        else ('�', bs)
      | _ => ('�', [])
    else ('�', bs)

theorem utf8DecodeStep_shrink (b : Nat) (bs : Bytes) :
    (utf8DecodeStep (b :: bs)).2.length < (b :: bs).length := by
  unfold utf8DecodeStep
  repeat' split
  all_goals simp_all [List.length_cons]
  all_goals omega

/-- UTF-8 decoding of a byte buffer: model of `buffer.toString()` (`'utf8'`).
Fueled by the buffer length; each step consumes at least one byte. -/
def utf8DecodeAux : Nat → Bytes → List Char
  | 0, _ => []
  | _, [] => []
  | fuel + 1, b :: bs =>
    let (c, rest) := utf8DecodeStep (b :: bs)
    c :: utf8DecodeAux fuel rest

/-- Model of `buffer.toString()`: decode the bytes as UTF-8. -/
def bufferToString (bs : Bytes) : String :=
  String.mk (utf8DecodeAux bs.length bs)

/-!
### A model of the ECMAScript `JSON.parse` builtin

`Body.prototype.json` delegates to the runtime's `JSON.parse`, which is not
code of this repository.  Modelled from its standard grammar (ECMA-404): a
recognizer that accepts exactly the strings forming a single JSON text.
Only acceptance is modelled (`json()`'s success or `invalid-json` failure);
the produced value is the runtime's business.
-/

/-- JSON insignificant whitespace skipper. -/
def jsonSkipWs : List Char → List Char
  | c :: cs => if c = ' ' ∨ c = '\t' ∨ c = '\n' ∨ c = '\r' then jsonSkipWs cs else c :: cs
  | [] => []

def isHexDigit (c : Char) : Bool :=
  c.isDigit ∨ ('a' ≤ c ∧ c ≤ 'f') ∨ ('A' ≤ c ∧ c ≤ 'F')

/-- Recognize the remainder of a JSON string literal (after the opening
quote), returning the input after the closing quote. -/
def jsonStringRest : List Char → Option (List Char)
  | [] => none
  | '"' :: rest => some rest
  | '\\' :: e :: rest =>
    if e = 'u' then
      match rest with
      | h1 :: h2 :: h3 :: h4 :: rest4 =>
        if isHexDigit h1 ∧ isHexDigit h2 ∧ isHexDigit h3 ∧ isHexDigit h4 then
          jsonStringRest rest4
        else none
      | _ => none
    else if e = '"' ∨ e = '\\' ∨ e = '/' ∨ e = 'b' ∨ e = 'f' ∨ e = 'n' ∨ e = 'r' ∨ e = 't' then
      jsonStringRest rest
    else none
  | c :: rest => if c.toNat < 0x20 then none else jsonStringRest rest

/-- Recognize a JSON number, returning the remaining input. -/
def jsonNumber (s : List Char) : Option (List Char) :=
  let s1 := match s with
    | '-' :: r => r
    | _ => s
  let int? : Option (List Char) := match s1 with
    | '0' :: r => some r
    | d :: r => if d.isDigit then some (r.dropWhile Char.isDigit) else none
    | [] => none
  match int? with
  | none => none
  | some s2 =>
    let s3? : Option (List Char) := match s2 with
      | '.' :: d :: r => if d.isDigit then some (r.dropWhile Char.isDigit) else none
      | '.' :: [] => none
      | _ => some s2
    match s3? with
    | none => none
    | some s3 =>
      match s3 with
      | e :: r =>
        if e = 'e' ∨ e = 'E' then
          let r1 := match r with
            | '+' :: r' => r'
            | '-' :: r' => r'
            | _ => r
          match r1 with
          | d :: r2 => if d.isDigit then some (r2.dropWhile Char.isDigit) else none
          | [] => none
        else some s3
      | [] => some s3

mutual

/-- Recognize one JSON value, returning the remaining input.  Fueled; each
recursive call consumes at least one character, so fuel `length + 1`
suffices. -/
def jsonValue : Nat → List Char → Option (List Char)
  | 0, _ => none
  | fuel + 1, s =>
    match jsonSkipWs s with
    | [] => none
    | 't' :: rest => (match rest with | 'r' :: 'u' :: 'e' :: r => some r | _ => none)
    | 'f' :: rest => (match rest with | 'a' :: 'l' :: 's' :: 'e' :: r => some r | _ => none)
    | 'n' :: rest => (match rest with | 'u' :: 'l' :: 'l' :: r => some r | _ => none)
    | '"' :: rest => jsonStringRest rest
    | '{' :: rest =>
      (match jsonSkipWs rest with
       | '}' :: r => some r
       | r => jsonMembers fuel r)
    | '[' :: rest =>
      (match jsonSkipWs rest with
       | ']' :: r => some r
       | r => jsonElements fuel r)
    | c :: rest => if c = '-' ∨ c.isDigit then jsonNumber (c :: rest) else none

/-- Recognize a nonempty member list of a JSON object, consuming the
closing brace. -/
def jsonMembers : Nat → List Char → Option (List Char)
  | 0, _ => none
  | fuel + 1, s =>
    match jsonSkipWs s with
    | '"' :: rest =>
      (match jsonStringRest rest with
       | none => none
       | some afterKey =>
         match jsonSkipWs afterKey with
         | ':' :: afterColon =>
           (match jsonValue fuel afterColon with
            | none => none
            | some afterVal =>
              match jsonSkipWs afterVal with
              | ',' :: r => jsonMembers fuel r
              | '}' :: r => some r
              | _ => none)
         | _ => none)
    | _ => none

/-- Recognize a nonempty element list of a JSON array, consuming the
closing bracket. -/
def jsonElements : Nat → List Char → Option (List Char)
  | 0, _ => none
  | fuel + 1, s =>
    match jsonValue fuel s with
    | none => none
    | some afterVal =>
      match jsonSkipWs afterVal with
      | ',' :: r => jsonElements fuel r
      | ']' :: r => some r
      | _ => none

end

/-- Model of `JSON.parse(s)` succeeding: `s` is a single JSON text
surrounded by optional whitespace. -/
def jsonAccepts (s : String) : Bool :=
  match jsonValue (2 * s.length + 2) s.data with
  | some rest => (jsonSkipWs rest).isEmpty
  | none => false

/-!
### Errors

`body.js` raises plain `TypeError`s, plain `Error`s and `FetchError`s
(`fetch-error.js`: message plus a kind tag).  `getReader`/`tee` on a locked
WHATWG stream throws a `TypeError` whose message is runtime-defined, so that
error is its own constructor without a message field.
-/

inductive JsError where
  /-- `throw new TypeError(msg)` / rejection with a `TypeError`. -/
  | typeError (msg : String)
  /-- `throw new Error(msg)`. -/
  | plainError (msg : String)
  /-- `new FetchError(msg, kind)`. -/
  | fetchError (msg : String) (kind : String)
  /-- `FetchError` of kind `invalid-json` raised by `Body.prototype.json`;
  its message is `invalid json response body at {url} reason: {err.message}`
  where `err.message` comes from the runtime's `JSON.parse`. -/
  | invalidJson (url : String)
  /-- `TypeError` thrown by `getReader()`, `tee()` or `pipeThrough()` on a
  locked WHATWG stream (message runtime-defined). -/
  | streamLocked
deriving Repr, DecidableEq

/-!
### The WHATWG stream heap

WHATWG `ReadableStream`s are mutable objects shared by reference: `tee()`
and `pipeThrough()` lock the receiver and `getReader()` locks it for the
reader.  Objects live in a heap addressed by allocation index.  The
out-of-range default is a locked stream, so `locked = false` certifies a
real allocation.
-/

structure StreamObj where
  chunks : List Bytes
  locked : Bool
deriving Repr, DecidableEq

abbrev StreamRef := Nat

abbrev Heap := List StreamObj

def Heap.get (h : Heap) (r : StreamRef) : StreamObj :=
  h.getD r ⟨[], true⟩

def Heap.set (h : Heap) (r : StreamRef) (o : StreamObj) : Heap :=
  List.set h r o

def Heap.alloc (h : Heap) (o : StreamObj) : Heap × StreamRef :=
  (h ++ [o], h.length)

/-!
### Body sources

`getTypeOfBody` (body.js:18) tags the duck-typed body value; the shallow
embedding makes the tag a constructor.  Fields record exactly what the
source code reads off each shape of value:
* a blob's bytes (`await body.arrayBuffer()`), `size` = bytes.length and
  `type`;
* a view's underlying `buffer` plus `byteOffset`/`byteLength` window;
* a form-data object's `boundary`, its multipart `stream`'s chunks, its
  `toString()` result (`"[object FormData]"` for objects recognized by
  `getTypeOfBody`'s brand check) and `getLengthSync()` when
  `hasKnownLength()` (`none` when the length is not reported);
* a Node stream's chunk sequence (`data` events, byte-coerced);
* a WHATWG stream by reference into the heap;
* `other` values by their `String(body)`/`toString()` stringification.
-/

structure FormDataObj where
  boundary : String
  streamChunks : List Bytes
  stringified : String
  knownLength : Option Nat
deriving Repr, DecidableEq

inductive BodySource where
  | null
  | str (s : String)
  | urlSearchParams (stringified : String)
  | blob (bytes : Bytes) (type : String)
  | buffer (bytes : Bytes)
  | arrayBuffer (bytes : Bytes)
  | arrayBufferView (buf : Bytes) (byteOffset : Nat) (viewByteLength : Nat)
  | formData (fd : FormDataObj)
  | nodeStream (chunks : List Bytes)
  | readableStream (ref : StreamRef)
  | other (stringified : String)
deriving Repr, DecidableEq

/-- The tag string computed by `getTypeOfBody` (body.js:18). -/
def getTypeOfBody : BodySource → String
  | .null => "null"
  | .str _ => "String"
  | .urlSearchParams _ => "URLSearchParams"
  | .blob _ _ => "Blob"
  | .buffer _ => "Buffer"
  | .arrayBuffer _ => "ArrayBuffer"
  | .arrayBufferView _ _ _ => "ArrayBufferView"
  | .formData _ => "FormData"
  | .nodeStream _ => "Stream"
  | .readableStream _ => "ReadableStream"
  | .other _ => "other"

/-- The single byte array enqueued by the `start` controller of
`createReadableStream` (body.js:109-150) for materialized (non-null,
non-stream) sources.  The `null` and stream tags never reach this switch;
the JS `default` branch throws for tags `getTypeOfBody` cannot produce. -/
def sourceArray : BodySource → Bytes
  | .str s => utf8Encode s
  | .urlSearchParams q => utf8Encode q
  | .blob bytes _ => bytes
  | .buffer bytes => bytes
  | .arrayBuffer bytes => bytes
  | .arrayBufferView buf _ _ => buf
  | .formData fd => utf8Encode fd.stringified
  | .other s => utf8Encode s
  | _ => []

/-- `createReadableStream(instance)` (body.js:84): convert a body source to
a WHATWG byte stream.
* `null` → no stream (`null`);
* a WHATWG stream → `pipeThrough` a byte-coercing transform that drops
  zero-length chunks (locks the source, yields a fresh stream);
* a Node stream → `readableNodeToWeb`: a fresh stream enqueueing each
  byte-coerced chunk;
* otherwise → a fresh single-chunk stream holding `sourceArray` (nothing
  enqueued when that array is empty).
Note `Buffer.from(body.buffer)` on an `ArrayBufferView` wraps the whole
underlying `ArrayBuffer`, and `Buffer.from(body.toString())` on a form-data
object encodes its stringification. -/
def createReadableStream (h : Heap) (src : BodySource) : Heap × Option StreamRef :=
  match src with
  | .null => (h, none)
  | .readableStream ref =>
    let obj := h.get ref
    let h1 := h.set ref { obj with locked := true }
    let (h2, r) := h1.alloc ⟨obj.chunks.filter (fun c => c.length ≠ 0), false⟩
    (h2, some r)
  | .nodeStream chunks =>
    let (h1, r) := h.alloc ⟨chunks, false⟩
    (h1, some r)
  | src =>
    let a := sourceArray src
    let (h1, r) := h.alloc ⟨if a.length ≠ 0 then [a] else [], false⟩
    (h1, some r)

/-!
### The Body state

`Body(body, { size, timeout, name })` (body.js:165) stores the source and
— for non-WHATWG-stream sources — the stream created by
`createReadableStream`; a WHATWG-stream source is installed as the stream
handle itself.  `url` and the `content-type` request/response header are
state of the Request/Response subclasses read by `consumeBody`, `json` and
`blob`.
-/

structure Body where
  body : BodySource
  readableStream : Option StreamRef
  disturbed : Bool
  size : Nat
  timeout : Nat
  name : String
  url : String
  contentTypeHeader : Option String
deriving Repr, DecidableEq

/-- The `Body` constructor (body.js:165-186). -/
def Body.make (h : Heap) (src : BodySource) (size timeout : Nat) (nm url : String)
    (ct : Option String) : Body × Heap :=
  match src with
  | .readableStream ref =>
    ({ body := src, readableStream := some ref, disturbed := false,
       size := size, timeout := timeout, name := nm, url := url,
       contentTypeHeader := ct }, h)
  | _ =>
    let (h1, rs) := createReadableStream h src
    ({ body := src, readableStream := rs, disturbed := false,
       size := size, timeout := timeout, name := nm, url := url,
       contentTypeHeader := ct }, h1)

/-!
### The consumption loop of `consumeBody` (body.js:307-386)

The promise executor reads chunks through `push()`; a body timeout (when
`instance.timeout` is truthy) may fire between read callbacks.  The loop is
modelled as a state machine over `LoopState`; an execution is determined by
the chunk sequence (each read resolves `{value: chunk}`, the final read
`{done: true}`) and by when — counted in completed read callbacks — the
timeout alarm fires (`Option Nat`; `none` = it never gets to fire).
`settled` is the promise's settlement, `timedOut` the `timedOut` flag that
makes later read callbacks return without effect.
-/

def typeErrorBodyUsed (url : String) : JsError :=
  .typeError ("body used already for: " ++ url)

def fetchErrorMaxSize (url : String) (size : Nat) : JsError :=
  .fetchError ("content size at " ++ url ++ " over limit: " ++ toString size) "max-size"

def fetchErrorBodyTimeout (url : String) (timeout : Nat) : JsError :=
  .fetchError ("Response timeout while trying to fetch " ++ url ++ " (over " ++
    toString timeout ++ "ms)") "body-timeout"

deriving instance DecidableEq for Except

structure LoopState where
  buffers : List Bytes
  totalBytes : Nat
  timedOut : Bool
  settled : Option (Except JsError Bytes)
deriving Repr, DecidableEq

def LoopState.init : LoopState :=
  ⟨[], 0, false, none⟩

/-- One read callback (the function passed to `reader.read().then`,
body.js:339-374).  `none` is the `done` read; `Buffer.concat` is modelled
as `flatten` (its out-of-memory failure, kind `system`, is outside the
model). -/
def readStep (size : Nat) (url : String) (s : LoopState) (read : Option Bytes) : LoopState :=
  if s.timedOut then s
  else match read with
  | none => { s with settled := some (.ok s.buffers.flatten) }
  | some chunk =>
    if size ≠ 0 ∧ s.totalBytes + chunk.length > size then
      { s with settled := some (.error (fetchErrorMaxSize url size)) }
    else
      { s with buffers := s.buffers ++ [chunk], totalBytes := s.totalBytes + chunk.length }

/-- The timeout alarm callback (body.js:329-332): set `timedOut` and reject
— a rejection of an already-settled promise is a no-op. -/
def fireStep (url : String) (timeout : Nat) (s : LoopState) : LoopState :=
  { s with timedOut := true,
           settled := match s.settled with
             | some x => some x
             | none => some (.error (fetchErrorBodyTimeout url timeout)) }

/-- Run the remaining read callbacks once the alarm can no longer fire
(`push()` is not called again after the promise settles, and a callback
that sees `timedOut` returns at once). -/
def runAfterFire (size : Nat) (url : String) : LoopState → List (Option Bytes) → LoopState
  | s, [] => s
  | s, r :: rs =>
    if s.settled.isSome then s
    else runAfterFire size url (readStep size url s r) rs

/-- Run the loop with the alarm set to fire after `fire` further read
callbacks (`none`: the alarm never fires — `clearTimeout` on settlement
wins, or no alarm was scheduled). -/
def runConsume (size : Nat) (url : String) (timeout : Nat) :
    LoopState → List (Option Bytes) → Option Nat → LoopState
  | s, reads, some 0 =>
    if s.settled.isSome then s
    else runAfterFire size url (fireStep url timeout s) reads
  | s, [], _ => s
  | s, r :: rs, none =>
    if s.settled.isSome then s
    else runConsume size url timeout (readStep size url s r) rs none
  | s, r :: rs, some (k + 1) =>
    if s.settled.isSome then s
    else runConsume size url timeout (readStep size url s r) rs (some k)

/-- Number of read callbacks after which the promise settles when no alarm
fires: the `done` read, or the first chunk that overflows the size cap. -/
def settleReads (size : Nat) : List Bytes → Nat → Nat
  | [], _ => 1
  | c :: cs, tot =>
    if size ≠ 0 ∧ tot + c.length > size then 1
    else 1 + settleReads size cs (tot + c.length)

/-- The pure result of the read loop (no alarm), as a fold: reject with
kind `max-size` at the first chunk overflowing a nonzero cap, otherwise
resolve with the concatenation. -/
def consumeChunksAux (size : Nat) (url : String) :
    List Bytes → Nat → List Bytes → Except JsError Bytes
  | acc, _, [] => .ok acc.flatten
  | acc, tot, c :: cs =>
    if size ≠ 0 ∧ tot + c.length > size then .error (fetchErrorMaxSize url size)
    else consumeChunksAux size url (acc ++ [c]) (tot + c.length) cs

def consumeChunks (size : Nat) (url : String) (chunks : List Bytes) : Except JsError Bytes :=
  consumeChunksAux size url [] 0 chunks

/-- Outcome of one `consumeBody` call: the promise's settlement, whether a
body-timeout timer was scheduled (`instance.timeout` truthy and the
executor reached the scheduling point), and whether it was cleared (the
`promise.then(clear, clear)` handlers, body.js:380-383, run at
settlement). -/
structure ConsumeOut where
  outcome : Except JsError Bytes
  timerSet : Bool
  timerCleared : Bool
deriving Repr, DecidableEq

/-- `consumeBody.call(instance)` (body.js:307-386) under an execution in
which the alarm — if scheduled — fires after `fire` read callbacks.
Rejects at once when disturbed; marks disturbed; a `null` stream handle
resolves to an empty buffer; `getReader()` on a locked handle throws into
the executor (rejecting the promise) before any timer is scheduled;
otherwise the handle is locked by its reader and the read loop runs. -/
def consumeBody (fire : Option Nat) (b : Body) (h : Heap) : ConsumeOut × Body × Heap :=
  if b.disturbed then
    (⟨.error (typeErrorBodyUsed b.url), false, false⟩, b, h)
  else
    let b' := { b with disturbed := true }
    match b'.readableStream with
    | none => (⟨.ok [], false, false⟩, b', h)
    | some ref =>
      let obj := h.get ref
      if obj.locked then
        (⟨.error .streamLocked, false, false⟩, b', h)
      else
        let h' := h.set ref { obj with locked := true }
        let timerSet := b'.timeout != 0
        let reads := obj.chunks.map some ++ [none]
        let final := runConsume b'.size b'.url b'.timeout LoopState.init reads
          (if timerSet then fire else none)
        (⟨final.settled.getD (.error (.plainError "unsettled")), timerSet,
            timerSet && final.settled.isSome⟩, b', h')

/-!
### `writeToStream` (body.js:531-598)

Write a Body to a Node destination (e.g. the outgoing HTTP request, or the
Busboy parser in `formData()`).  The result records the chunk sequence
written to `dest`.  For a WHATWG-stream source the body is teed: one branch
is drained into `dest` (its reader locks it), the other replaces
`INTERNALS.body` — but `INTERNALS.readableStream` is left untouched.
`URLSearchParams` has its case commented out in the source and falls to the
`default` branch, `dest.write(String(body))`. -/
def writeToStream (b : Body) (h : Heap) : Except JsError (List Bytes × Body × Heap) :=
  match b.body with
  | .null => .ok ([], b, h)
  | .nodeStream chunks => .ok (chunks, b, h)
  | .readableStream ref =>
    let obj := h.get ref
    if obj.locked then .error .streamLocked
    else
      let h1 := h.set ref { obj with locked := true }
      let (h2, out1) := h1.alloc ⟨obj.chunks, false⟩
      let (h3, _out2) := h2.alloc ⟨obj.chunks, true⟩
      .ok (obj.chunks, { b with body := .readableStream out1 }, h3)
  | .str s => .ok ([utf8Encode s], b, h)
  | .blob bytes _ => .ok ([bytes], b, h)
  | .buffer bytes => .ok ([bytes], b, h)
  | .arrayBuffer bytes => .ok ([bytes], b, h)
  | .arrayBufferView buf off len => .ok ([(buf.drop off).take len], b, h)
  | .formData fd => .ok (fd.streamChunks, b, h)
  | .urlSearchParams q => .ok ([utf8Encode q], b, h)
  | .other s => .ok ([utf8Encode s], b, h)

/-!
### The accessors (body.js:203-276)

All six accessors start with `consumeBody.call(this)` and post-process the
buffer.  `formData()` ignores the consumed buffer and feeds the body to the
external Busboy multipart parser via `writeToStream(busboy, this)`; the
model records the bytes handed to the parser.
-/

inductive Accessor where
  | arrayBuffer | blob | text | json | buffer | formData
deriving Repr, DecidableEq

inductive AccessorOutcome where
  /-- `buffer()` resolved with the raw bytes, or `arrayBuffer()` with an
  owned copy of them. -/
  | bytes (bs : Bytes)
  /-- `text()` resolved. -/
  | text (s : String)
  /-- `json()` resolved; the decoded text it parsed. -/
  | json (raw : String)
  /-- `blob()` resolved: the bytes and the lowercased `content-type`. -/
  | blobOut (bs : Bytes) (type : String)
  /-- `formData()` resolved: the bytes handed to the multipart parser. -/
  | form (bs : Bytes)
  /-- the accessor's promise rejected. -/
  | err (e : JsError)
deriving Repr, DecidableEq

/-- Run one accessor under an execution where the body-timeout alarm (if
scheduled) fires after `fire` read callbacks. -/
def runAccessor (a : Accessor) (fire : Option Nat) (b : Body) (h : Heap) :
    AccessorOutcome × Body × Heap :=
  let (out, b', h') := consumeBody fire b h
  match out.outcome with
  | .error e => (.err e, b', h')
  | .ok buf =>
    match a with
    | .buffer => (.bytes buf, b', h')
    | .arrayBuffer => (.bytes buf, b', h')
    | .blob => (.blobOut buf ((b'.contentTypeHeader.getD "").toLower), b', h')
    | .text => (.text (bufferToString buf), b', h')
    | .json =>
      let s := bufferToString buf
      if jsonAccepts s then (.json s, b', h')
      else (.err (.invalidJson b'.url), b', h')
    | .formData =>
      match writeToStream b' h' with
      | .ok (written, b'', h'') => (.form written.flatten, b'', h'')
      | .error e => (.err e, b', h')

/-!
### `cloneBody` (body.js:419-455)

Refuse when disturbed; tee stream-shaped sources (a Node stream through two
`PassThrough`s — one becomes the new source, with a fresh node-to-web
adapter as the stream handle; a WHATWG stream through `tee()` — one branch
becomes both the new source and the handle); return materialized sources by
shared reference. -/
def cloneBody (b : Body) (h : Heap) : Except JsError (BodySource × Body × Heap) :=
  if b.disturbed then .error (.plainError "cannot clone body after it is used")
  else match b.body with
  | .nodeStream chunks =>
    let b1 := { b with body := .nodeStream chunks }
    let (h1, rs) := createReadableStream h (.nodeStream chunks)
    .ok (.nodeStream chunks, { b1 with readableStream := rs }, h1)
  | .readableStream ref =>
    let obj := h.get ref
    if obj.locked then .error .streamLocked
    else
      let h1 := h.set ref { obj with locked := true }
      let (h2, p1) := h1.alloc ⟨obj.chunks, false⟩
      let (h3, p2) := h2.alloc ⟨obj.chunks, false⟩
      .ok (.readableStream p2,
           { b with body := .readableStream p1, readableStream := some p1 }, h3)
  | src => .ok (src, b, h)

/-- `extractContentType(instance)` (body.js:466-483). -/
def extractContentType (src : BodySource) : Option String :=
  match src with
  | .str _ => some "text/plain;charset=UTF-8"
  | .other _ => some "text/plain;charset=UTF-8"
  | .urlSearchParams _ => some "application/x-www-form-urlencoded;charset=UTF-8"
  | .blob _ ty => if ty = "" then none else some ty
  | .formData fd => some ("multipart/form-data;boundary=" ++ fd.boundary)
  | _ => none

/-- `getTotalBytes(instance)` (body.js:494-523).  The form-data case falls
through to `null` when the form does not report a length. -/
def getTotalBytes (src : BodySource) : Option Nat :=
  match src with
  | .null => some 0
  | .str s => some (byteLength s)
  | .urlSearchParams q => some (byteLength q)
  | .other s => some (byteLength s)
  | .blob bytes _ => some bytes.length
  | .buffer bytes => some bytes.length
  | .arrayBuffer bytes => some bytes.length
  | .arrayBufferView _ _ len => some len
  | .formData fd => fd.knownLength
  | .nodeStream _ => none
  | .readableStream _ => none

/-!
### Spec-side definitions

For the Content-Type and Content-Length tables the spec's own words are
written out as separate definitions (to be compared with the ones embedded
from the source).
-/

/-- The spec's Content-Type table (spec §4.6): "string/other→
`text/plain;charset=UTF-8`; url-encoded-params→
`application/x-www-form-urlencoded;charset=UTF-8`; blob→blob's type (or
omit if empty); form-data→`multipart/form-data;boundary={boundary}`;
otherwise unset." -/
def specContentType (src : BodySource) : Option String :=
  match src with
  | .str _ => some "text/plain;charset=UTF-8"
  | .other _ => some "text/plain;charset=UTF-8"
  | .urlSearchParams _ => some "application/x-www-form-urlencoded;charset=UTF-8"
  | .blob _ ty => if ty = "" then none else some ty
  | .formData fd => some ("multipart/form-data;boundary=" ++ fd.boundary)
  | .null => none
  | .buffer _ => none
  | .arrayBuffer _ => none
  | .arrayBufferView _ _ _ => none
  | .nodeStream _ => none
  | .readableStream _ => none

/-- The spec's Content-Length table (spec §4.6): "null→`0`; string/other→
UTF-8 byte length; url-encoded-params→byte length of stringified form;
blob→size; byte-buffer→length; array-buffer(/view)→byteLength; form-data→
length if the form reports one, else unset; streams→unset." -/
def specTotalBytes (src : BodySource) : Option Nat :=
  match src with
  | .null => some 0
  | .str s => some (byteLength s)
  | .other s => some (byteLength s)
  | .urlSearchParams q => some (byteLength q)
  | .blob bytes _ => some bytes.length
  | .buffer bytes => some bytes.length
  | .arrayBuffer bytes => some bytes.length
  | .arrayBufferView _ _ len => some len
  | .formData fd => fd.knownLength
  | .nodeStream _ => none
  | .readableStream _ => none

/-- Total byte count of a chunk sequence. -/
def sumLens (l : List Bytes) : Nat :=
  (l.map List.length).sum

/-!
## Lemmas about the heap and the consumption loop
-/

theorem Heap.get_out_of_range (h : Heap) (r : StreamRef) (hr : h.length ≤ r) :
    h.get r = ⟨[], true⟩ := by
  simp [Heap.get, List.getD_eq_getElem?_getD, List.getElem?_eq_none hr]

theorem lt_length_of_unlocked {h : Heap} {r : StreamRef}
    (hu : (h.get r).locked = false) : r < h.length := by
  by_contra hc
  rw [Heap.get_out_of_range h r (Nat.le_of_not_lt hc)] at hu
  simp at hu

theorem Heap.get_set_self (h : Heap) (r : StreamRef) (o : StreamObj)
    (hr : r < h.length) : (h.set r o).get r = o := by
  simp [Heap.get, Heap.set, List.getD_eq_getElem?_getD, List.getElem?_set_self, hr]

theorem Heap.get_set_ne (h : Heap) (r r' : StreamRef) (o : StreamObj)
    (hne : r' ≠ r) : (h.set r o).get r' = h.get r' := by
  simp [Heap.get, Heap.set, List.getD_eq_getElem?_getD,
    List.getElem?_set_ne (fun he => hne he.symm)]

theorem Heap.get_append_right (h h' : Heap) (r : StreamRef) (hr : r < h.length) :
    (h ++ h').get r = h.get r := by
  simp [Heap.get, List.getD_eq_getElem?_getD, List.getElem?_append_left hr]

theorem Heap.get_append_self (h : Heap) (o : StreamObj) :
    (h ++ [o]).get h.length = o := by
  simp [Heap.get, List.getD_eq_getElem?_getD]

theorem runAfterFire_of_settled (size : Nat) (url : String) (s : LoopState)
    (reads : List (Option Bytes)) (hs : s.settled.isSome) :
    runAfterFire size url s reads = s := by
  cases reads with
  | nil => rfl
  | cons r rs => simp [runAfterFire, hs]

/-- Once the `timedOut` flag is set every remaining read callback returns
without effect. -/
theorem runAfterFire_of_timedOut (size : Nat) (url : String) (s : LoopState)
    (reads : List (Option Bytes)) (ht : s.timedOut = true) :
    runAfterFire size url s reads = s := by
  induction reads with
  | nil => rfl
  | cons r rs ih =>
    by_cases hs : s.settled.isSome
    · simp [runAfterFire, hs]
    · simp [runAfterFire, hs, readStep, ht, ih]

theorem fireStep_settled (url : String) (timeout : Nat) (s : LoopState) :
    (fireStep url timeout s).settled.isSome := by
  unfold fireStep
  cases s.settled <;> simp

theorem fireStep_timedOut (url : String) (timeout : Nat) (s : LoopState) :
    (fireStep url timeout s).timedOut = true := rfl

/-- With no alarm, `runConsume` is the plain read loop. -/
theorem runConsume_none (size : Nat) (url : String) (timeout : Nat) :
    ∀ (reads : List (Option Bytes)) (s : LoopState),
    runConsume size url timeout s reads none = runAfterFire size url s reads := by
  intro reads
  induction reads with
  | nil => intro s; rfl
  | cons r rs ih =>
    intro s
    by_cases hs : s.settled.isSome
    · simp [runConsume, runAfterFire, hs]
    · simp [runConsume, runAfterFire, hs, ih]

/-- The plain read loop from a live state computes the fold
`consumeChunksAux`. -/
theorem runAfterFire_spec (size : Nat) (url : String) :
    ∀ (c acc : List Bytes) (tot : Nat),
    (runAfterFire size url ⟨acc, tot, false, none⟩ (c.map some ++ [none])).settled
      = some (consumeChunksAux size url acc tot c) := by
  intro c
  induction c with
  | nil =>
    intro acc tot
    simp [runAfterFire, readStep, consumeChunksAux]
  | cons ch cs ih =>
    intro acc tot
    have h1 : runAfterFire size url ⟨acc, tot, false, none⟩ ((ch :: cs).map some ++ [none])
        = runAfterFire size url (readStep size url ⟨acc, tot, false, none⟩ (some ch))
            (cs.map some ++ [none]) := by
      simp [runAfterFire]
    rw [h1]
    by_cases hv : size ≠ 0 ∧ tot + ch.length > size
    · have h2 : readStep size url ⟨acc, tot, false, none⟩ (some ch)
          = ⟨acc, tot, false, some (.error (fetchErrorMaxSize url size))⟩ := by
        simp [readStep, hv]
      rw [h2, runAfterFire_of_settled]
      · simp [consumeChunksAux, hv]
      · simp
    · have h2 : readStep size url ⟨acc, tot, false, none⟩ (some ch)
          = ⟨acc ++ [ch], tot + ch.length, false, none⟩ := by
        simp [readStep, hv]
      rw [h2, ih]
      simp [consumeChunksAux, hv]

theorem runConsume_of_settled (size : Nat) (url : String) (timeout : Nat)
    (s : LoopState) (reads : List (Option Bytes)) (fire : Option Nat)
    (hs : s.settled.isSome) :
    runConsume size url timeout s reads fire = s := by
  match reads, fire with
  | reads, some 0 => simp [runConsume, hs]
  | [], none => rfl
  | [], some (k + 1) => rfl
  | r :: rs, none => simp [runConsume, hs]
  | r :: rs, some (k + 1) => simp [runConsume, hs]

theorem runConsume_fire_zero (size : Nat) (url : String) (timeout : Nat)
    (s : LoopState) (reads : List (Option Bytes)) (hs : s.settled = none) :
    runConsume size url timeout s reads (some 0) = fireStep url timeout s := by
  have h1 : runConsume size url timeout s reads (some 0)
      = runAfterFire size url (fireStep url timeout s) reads := by
    simp [runConsume, hs]
  rw [h1, runAfterFire_of_settled _ _ _ _ (fireStep_settled url timeout s)]

/-- If the alarm fires before the loop settles, the promise rejects with
kind `body-timeout`. -/
theorem runConsume_fire_early (size : Nat) (url : String) (timeout : Nat) :
    ∀ (c : List Bytes) (k : Nat) (acc : List Bytes) (tot : Nat),
    k < settleReads size c tot →
    (runConsume size url timeout ⟨acc, tot, false, none⟩ (c.map some ++ [none])
        (some k)).settled
      = some (.error (fetchErrorBodyTimeout url timeout)) := by
  intro c
  induction c with
  | nil =>
    intro k acc tot hk
    have hk0 : k = 0 := by
      have : settleReads size [] tot = 1 := rfl
      omega
    subst hk0
    rw [runConsume_fire_zero _ _ _ _ _ rfl]
    simp [fireStep]
  | cons ch cs ih =>
    intro k acc tot hk
    match k with
    | 0 =>
      rw [runConsume_fire_zero _ _ _ _ _ rfl]
      simp [fireStep]
    | k + 1 =>
      by_cases hv : size ≠ 0 ∧ tot + ch.length > size
      · exfalso
        have : settleReads size (ch :: cs) tot = 1 := by simp [settleReads, hv]
        omega
      · have hs : settleReads size (ch :: cs) tot
            = 1 + settleReads size cs (tot + ch.length) := by
          simp [settleReads, hv]
        have h1 : runConsume size url timeout ⟨acc, tot, false, none⟩
            ((ch :: cs).map some ++ [none]) (some (k + 1))
            = runConsume size url timeout
                (readStep size url ⟨acc, tot, false, none⟩ (some ch))
                (cs.map some ++ [none]) (some k) := by
          simp [runConsume]
        have h2 : readStep size url ⟨acc, tot, false, none⟩ (some ch)
            = ⟨acc ++ [ch], tot + ch.length, false, none⟩ := by
          simp [readStep, hv]
        rw [h1, h2, ih]
        omega

/-- If the loop settles before the alarm would fire, the alarm is cleared
and the result is the plain read-loop result. -/
theorem runConsume_fire_late (size : Nat) (url : String) (timeout : Nat) :
    ∀ (c : List Bytes) (k : Nat) (acc : List Bytes) (tot : Nat),
    settleReads size c tot ≤ k →
    (runConsume size url timeout ⟨acc, tot, false, none⟩ (c.map some ++ [none])
        (some k)).settled
      = some (consumeChunksAux size url acc tot c) := by
  intro c
  induction c with
  | nil =>
    intro k acc tot hk
    have h1 : settleReads size [] tot = 1 := rfl
    match k with
    | 0 => omega
    | k + 1 =>
      have h2 : runConsume size url timeout ⟨acc, tot, false, none⟩
          (([] : List Bytes).map some ++ [none]) (some (k + 1))
          = runConsume size url timeout
              (readStep size url ⟨acc, tot, false, none⟩ none) [] (some k) := by
        simp [runConsume]
      have h3 : readStep size url ⟨acc, tot, false, none⟩ none
          = ⟨acc, tot, false, some (.ok acc.flatten)⟩ := by
        simp [readStep]
      rw [h2, h3, runConsume_of_settled]
      · simp [consumeChunksAux]
      · simp
  | cons ch cs ih =>
    intro k acc tot hk
    have hone : 1 ≤ settleReads size (ch :: cs) tot := by
      by_cases hv : size ≠ 0 ∧ tot + ch.length > size <;> simp [settleReads, hv]
    match k with
    | 0 => omega
    | k + 1 =>
      have h1 : runConsume size url timeout ⟨acc, tot, false, none⟩
          ((ch :: cs).map some ++ [none]) (some (k + 1))
          = runConsume size url timeout
              (readStep size url ⟨acc, tot, false, none⟩ (some ch))
              (cs.map some ++ [none]) (some k) := by
        simp [runConsume]
      by_cases hv : size ≠ 0 ∧ tot + ch.length > size
      · have h2 : readStep size url ⟨acc, tot, false, none⟩ (some ch)
            = ⟨acc, tot, false, some (.error (fetchErrorMaxSize url size))⟩ := by
          simp [readStep, hv]
        rw [h1, h2, runConsume_of_settled]
        · simp [consumeChunksAux, hv]
        · simp
      · have hs : settleReads size (ch :: cs) tot
            = 1 + settleReads size cs (tot + ch.length) := by
          simp [settleReads, hv]
        have h2 : readStep size url ⟨acc, tot, false, none⟩ (some ch)
            = ⟨acc ++ [ch], tot + ch.length, false, none⟩ := by
          simp [readStep, hv]
        rw [h1, h2, ih]
        · simp [consumeChunksAux, hv]
        · omega

/-- The loop always settles — under every alarm interleaving — so the
`promise.then(clear, clear)` handlers always run. -/
theorem runConsume_settles (size : Nat) (url : String) (timeout : Nat)
    (c : List Bytes) (fire : Option Nat) :
    (runConsume size url timeout LoopState.init (c.map some ++ [none]) fire).settled.isSome := by
  match fire with
  | none =>
    rw [runConsume_none, show LoopState.init = ⟨[], 0, false, none⟩ from rfl, runAfterFire_spec]
    rfl
  | some k =>
    by_cases hk : k < settleReads size c 0
    · rw [show LoopState.init = ⟨[], 0, false, none⟩ from rfl,
        runConsume_fire_early size url timeout c k [] 0 hk]
      rfl
    · rw [show LoopState.init = ⟨[], 0, false, none⟩ from rfl,
        runConsume_fire_late size url timeout c k [] 0 (Nat.le_of_not_lt hk)]
      rfl

/-!
## Lemmas about `consumeBody`, the accessors and `writeToStream`
-/

/-- The Body state after `consumeBody`: the call marks the body disturbed
(and an already-disturbed body stays so). -/
theorem consumeBody_body_eq (fire : Option Nat) (b : Body) (h : Heap) :
    (consumeBody fire b h).2.1 = if b.disturbed then b else { b with disturbed := true } := by
  unfold consumeBody
  by_cases hd : b.disturbed = true
  · simp [hd]
  · simp only [Bool.not_eq_true] at hd
    cases hrs : b.readableStream with
    | none => simp [hd, hrs]
    | some ref =>
      by_cases hl : (Heap.get h ref).locked = true <;> simp [hd, hrs, hl]

theorem consumeBody_disturbed (fire : Option Nat) (b : Body) (h : Heap) :
    ((consumeBody fire b h).2.1).disturbed = true := by
  rw [consumeBody_body_eq]
  by_cases hd : b.disturbed = true <;> simp [hd]

theorem consumeBody_of_disturbed (fire : Option Nat) (b : Body) (h : Heap)
    (hd : b.disturbed = true) :
    consumeBody fire b h = (⟨.error (typeErrorBodyUsed b.url), false, false⟩, b, h) := by
  unfold consumeBody
  simp [hd]

/-- `consumeBody` on an undisturbed body whose stream handle is a fresh
(unlocked) stream with chunk list `c`. -/
theorem consumeBody_fresh (fire : Option Nat) (b : Body) (h : Heap) (ref : StreamRef)
    (c : List Bytes) (hd : b.disturbed = false) (hrs : b.readableStream = some ref)
    (hobj : h.get ref = ⟨c, false⟩) :
    consumeBody fire b h =
      (⟨(runConsume b.size b.url b.timeout LoopState.init (c.map some ++ [none])
            (if b.timeout != 0 then fire else none)).settled.getD
            (.error (.plainError "unsettled")),
         b.timeout != 0,
         (b.timeout != 0) && (runConsume b.size b.url b.timeout LoopState.init
            (c.map some ++ [none]) (if b.timeout != 0 then fire else none)).settled.isSome⟩,
       { b with disturbed := true }, h.set ref ⟨c, true⟩) := by
  unfold consumeBody
  simp [hd, hrs, hobj]

/-- `consumeBody` with no alarm on a fresh stream computes the plain
read-loop fold. -/
theorem consumeBody_none_outcome (b : Body) (h : Heap) (ref : StreamRef)
    (c : List Bytes) (hd : b.disturbed = false) (hrs : b.readableStream = some ref)
    (hobj : h.get ref = ⟨c, false⟩) :
    (consumeBody none b h).1.outcome = consumeChunks b.size b.url c := by
  rw [consumeBody_fresh none b h ref c hd hrs hobj]
  have hfire : (if b.timeout != 0 then (none : Option Nat) else none) = none := by
    by_cases ht : b.timeout != 0 <;> simp [ht]
  simp only [hfire]
  rw [runConsume_none, show LoopState.init = ⟨[], 0, false, none⟩ from rfl, runAfterFire_spec]
  rfl

/-- `writeToStream` never touches the disturbed flag, the stream handle,
the url or the options. -/
theorem writeToStream_preserves (b : Body) (h : Heap) (w : List Bytes) (b' : Body)
    (h' : Heap) (hw : writeToStream b h = .ok (w, b', h')) :
    b'.disturbed = b.disturbed ∧ b'.url = b.url ∧
    b'.readableStream = b.readableStream := by
  unfold writeToStream at hw
  cases hb : b.body <;> simp [hb] at hw <;> try (obtain ⟨_, h2, _⟩ := hw; subst h2; simp)
  case readableStream ref =>
    by_cases hl : (Heap.get h ref).locked = true <;> simp [hl] at hw
    obtain ⟨_, h2, _⟩ := hw
    subst h2
    simp

/-- A second accessor call after any disturbance rejects with the
`TypeError` naming the body as already used. -/
theorem runAccessor_of_disturbed (a : Accessor) (fire : Option Nat) (b : Body) (h : Heap)
    (hd : b.disturbed = true) :
    runAccessor a fire b h = (.err (typeErrorBodyUsed b.url), b, h) := by
  unfold runAccessor
  rw [consumeBody_of_disturbed fire b h hd]

/-- Whatever the accessor and however its promise settles, the body is
disturbed afterwards, and its url is unchanged. -/
theorem runAccessor_disturbed (a : Accessor) (fire : Option Nat) (b : Body) (h : Heap) :
    ((runAccessor a fire b h).2.1).disturbed = true ∧
    ((runAccessor a fire b h).2.1).url = b.url := by
  unfold runAccessor
  rcases hcb : consumeBody fire b h with ⟨out, b', h'⟩
  have hbd : b'.disturbed = true := by
    have := consumeBody_disturbed fire b h
    rw [hcb] at this
    exact this
  have hbu : b'.url = b.url := by
    have := consumeBody_body_eq fire b h
    rw [hcb] at this
    simp only at this
    by_cases hd : b.disturbed = true <;> simp [hd] at this <;> simp [this]
  cases hout : out.outcome with
  | error e => simp [hout, hbd, hbu]
  | ok buf =>
    cases a <;> simp only [hout] <;> try exact ⟨hbd, hbu⟩
    case json =>
      by_cases hj : jsonAccepts (bufferToString buf) = true <;> simp [hj, hbd, hbu]
    case formData =>
      rcases hw : writeToStream b' h' with e | ⟨w, b'', h''⟩
      · simp [hw, hbd, hbu]
      · obtain ⟨hd2, hu2, _⟩ := writeToStream_preserves b' h' w b'' h'' hw
        simp [hw, hd2, hu2, hbd, hbu]

/-!
## The claims
-/

/-- **C1.** For every Body `b`, after any one of the accessors
`arrayBuffer`, `blob`, `text`, `json`, `buffer`, `formData` has been called
(whether its future resolves or rejects, under any alarm interleaving),
`b.bodyUsed` is true, every further accessor call rejects with a
`TypeError` saying the body was used already, and `clone` fails with the
message `"cannot clone body after it is used"`. -/
theorem claim_C1_body_used_invariant (a : Accessor) (fire : Option Nat) (b : Body) (h : Heap) :
    ((runAccessor a fire b h).2.1.disturbed = true) ∧
    (∀ (a2 : Accessor) (fire2 : Option Nat),
      (runAccessor a2 fire2 (runAccessor a fire b h).2.1 (runAccessor a fire b h).2.2).1
        = .err (typeErrorBodyUsed b.url)) ∧
    (cloneBody (runAccessor a fire b h).2.1 (runAccessor a fire b h).2.2
      = .error (.plainError "cannot clone body after it is used")) := by
  obtain ⟨hd, hu⟩ := runAccessor_disturbed a fire b h
  refine ⟨hd, ?_, ?_⟩
  · intro a2 fire2
    rw [runAccessor_of_disturbed a2 fire2 _ _ hd]
    simp [hu]
  · unfold cloneBody
    simp [hd]

theorem consumeChunksAux_maxSize_iff (size : Nat) (url : String) (hs : size ≠ 0) :
    ∀ (c acc : List Bytes) (tot : Nat),
    (consumeChunksAux size url acc tot c = .error (fetchErrorMaxSize url size)) ↔
    (∃ i, ∃ hi : i < c.length, tot + sumLens (c.take i) + (c.get ⟨i, hi⟩).length > size) := by
  intro c
  induction c with
  | nil =>
    intro acc tot
    simp [consumeChunksAux]
  | cons ch cs ih =>
    intro acc tot
    by_cases hv : tot + ch.length > size
    · have hl : consumeChunksAux size url acc tot (ch :: cs)
          = .error (fetchErrorMaxSize url size) := by
        simp [consumeChunksAux, hs, hv]
      simp only [hl, true_iff]
      exact ⟨0, by simp, by simpa [sumLens] using hv⟩
    · have hl : consumeChunksAux size url acc tot (ch :: cs)
          = consumeChunksAux size url (acc ++ [ch]) (tot + ch.length) cs := by
        simp [consumeChunksAux, hv]
      rw [hl, ih]
      constructor
      · rintro ⟨j, hj, hgt⟩
        refine ⟨j + 1, by simpa using hj, ?_⟩
        simpa [sumLens, Nat.add_assoc] using hgt
      · rintro ⟨i, hi, hgt⟩
        match i with
        | 0 =>
          exfalso
          simp [sumLens] at hgt
          omega
        | j + 1 =>
          refine ⟨j, by simpa using hi, ?_⟩
          simpa [sumLens, Nat.add_assoc] using hgt

theorem consumeChunksAux_size_zero (url : String) :
    ∀ (c acc : List Bytes) (tot : Nat),
    consumeChunksAux 0 url acc tot c = .ok (acc ++ c).flatten := by
  intro c
  induction c with
  | nil => intro acc tot; simp [consumeChunksAux]
  | cons ch cs ih =>
    intro acc tot
    simp only [consumeChunksAux, ne_eq, not_true_eq_false, false_and, if_false, reduceIte, ih]
    simp

/-- **C2.** For every Body with a finite size cap `s > 0`, consumption
rejects with error kind `max-size` exactly when the running total of bytes
read plus the length of the incoming chunk exceeds `s`; with size cap `0`
the body is unbounded and no `max-size` error can occur (consumption
resolves with the full concatenation). -/
theorem claim_C2_max_size_cap (c : List Bytes) (s t : Nat) (nm u : String)
    (ct : Option String) (h : Heap) :
    (0 < s →
      (((consumeBody none (Body.make h (.nodeStream c) s t nm u ct).1
            (Body.make h (.nodeStream c) s t nm u ct).2).1.outcome
          = .error (fetchErrorMaxSize u s)) ↔
        (∃ i, ∃ hi : i < c.length, sumLens (c.take i) + (c.get ⟨i, hi⟩).length > s))) ∧
    ((consumeBody none (Body.make h (.nodeStream c) 0 t nm u ct).1
        (Body.make h (.nodeStream c) 0 t nm u ct).2).1.outcome = .ok c.flatten) := by
  have hmk : ∀ s' : Nat, (Body.make h (.nodeStream c) s' t nm u ct).1
      = { body := .nodeStream c, readableStream := some h.length, disturbed := false,
          size := s', timeout := t, name := nm, url := u, contentTypeHeader := ct } := by
    intro s'
    simp [Body.make, createReadableStream, Heap.alloc]
  have hmk2 : ∀ s' : Nat, (Body.make h (.nodeStream c) s' t nm u ct).2 = h ++ [⟨c, false⟩] := by
    intro s'
    simp [Body.make, createReadableStream, Heap.alloc]
  have hget : (h ++ [(⟨c, false⟩ : StreamObj)]).get h.length = ⟨c, false⟩ :=
    Heap.get_append_self h ⟨c, false⟩
  constructor
  · intro hpos
    rw [hmk s, hmk2 s, consumeBody_none_outcome _ _ h.length c rfl rfl hget]
    have := consumeChunksAux_maxSize_iff s u (Nat.pos_iff_ne_zero.mp hpos) c [] 0
    simpa [consumeChunks] using this
  · rw [hmk 0, hmk2 0, consumeBody_none_outcome _ _ h.length c rfl rfl hget]
    have := consumeChunksAux_size_zero u c [] 0
    simpa [consumeChunks] using this

/-- Witness for C2 at a concrete input: chunks `[[1,2],[3,4]]` against cap
`3` reject with `max-size` at the second chunk. -/
theorem claim_C2_max_size_cap_witness :
    (0 : Nat) < 3 ∧
    (consumeBody none (Body.make [] (.nodeStream [[1, 2], [3, 4]]) 3 0 "Body" "http://x/" none).1
        (Body.make [] (.nodeStream [[1, 2], [3, 4]]) 3 0 "Body" "http://x/" none).2).1.outcome
      = .error (fetchErrorMaxSize "http://x/" 3) :=
  ⟨by decide,
   ((claim_C2_max_size_cap [[1, 2], [3, 4]] 3 0 "Body" "http://x/" none []).1
       (by decide)).mpr ⟨1, by decide, by decide⟩⟩

/-- **C3.** For every Body constructed with a null body-source, `text()`
resolves to the empty string while `json()` rejects with error kind
`invalid-json`: consuming a null body yields an empty byte buffer, and JSON
parsing of the empty string is a failure, not a success. -/
theorem claim_C3_null_body (siz t : Nat) (nm u : String) (ct : Option String)
    (h : Heap) (fire : Option Nat) :
    ((consumeBody fire (Body.make h .null siz t nm u ct).1
        (Body.make h .null siz t nm u ct).2).1.outcome = .ok []) ∧
    ((runAccessor .text fire (Body.make h .null siz t nm u ct).1
        (Body.make h .null siz t nm u ct).2).1 = .text "") ∧
    ((runAccessor .json fire (Body.make h .null siz t nm u ct).1
        (Body.make h .null siz t nm u ct).2).1 = .err (.invalidJson u)) ∧
    jsonAccepts "" = false := by
  have hmk : Body.make h .null siz t nm u ct
      = ({ body := .null, readableStream := none, disturbed := false, size := siz,
           timeout := t, name := nm, url := u, contentTypeHeader := ct }, h) := by
    simp [Body.make, createReadableStream]
  have hjson : jsonAccepts "" = false := by decide
  have hempty : bufferToString [] = "" := rfl
  refine ⟨?_, ?_, ?_, hjson⟩ <;>
    simp [hmk, runAccessor, consumeBody, hempty, hjson]

/-- **C4.** The claim says converting an array-buffer-view body-source to a
byte stream yields exactly the `l` bytes starting at offset `o` of the
underlying buffer.  The code contradicts it: at the failing input — a view
with `byteOffset 7`, `byteLength 6` over the 14-byte buffer of
`"Hello, world!\n"` — `createReadableStream` (body.js:135,
`Buffer.from(body.buffer)`) enqueues the whole underlying buffer, so
consumption yields all 14 bytes instead of the 6-byte window `"world!"`;
`writeToStream` (body.js:587) does honor the view's offset and length, as
the claim and the repository's own offset/length POST test require. -/
theorem claim_C4_view_ignores_offset :
    ((createReadableStream [] (.arrayBufferView (utf8Encode "Hello, world!\n") 7 6)).1
      = [⟨[utf8Encode "Hello, world!\n"], false⟩]) ∧
    ((consumeBody none
        (Body.make [] (.arrayBufferView (utf8Encode "Hello, world!\n") 7 6)
          0 0 "Body" "u" none).1
        (Body.make [] (.arrayBufferView (utf8Encode "Hello, world!\n") 7 6)
          0 0 "Body" "u" none).2).1.outcome
      = .ok (utf8Encode "Hello, world!\n")) ∧
    (utf8Encode "Hello, world!\n" ≠ utf8Encode "world!") ∧
    (((utf8Encode "Hello, world!\n").drop 7).take 6 = utf8Encode "world!") ∧
    (writeToStream
        (Body.make [] (.arrayBufferView (utf8Encode "Hello, world!\n") 7 6)
          0 0 "Body" "u" none).1
        (Body.make [] (.arrayBufferView (utf8Encode "Hello, world!\n") 7 6)
          0 0 "Body" "u" none).2
      = .ok ([utf8Encode "world!"],
          (Body.make [] (.arrayBufferView (utf8Encode "Hello, world!\n") 7 6)
            0 0 "Body" "u" none).1,
          (Body.make [] (.arrayBufferView (utf8Encode "Hello, world!\n") 7 6)
            0 0 "Body" "u" none).2)) := by
  refine ⟨by decide, by decide, by decide, by decide, by decide⟩

/-- **C5.** The claim says converting a form-data body-source to a byte
stream emits the multipart-encoded stream supplied by the form object, so
consumption yields the multipart encoding rather than a stringification.
The code contradicts it: at the failing input — a form whose multipart
stream holds the single chunk `"--B-chunk"` — `createReadableStream`
(body.js:138, `Buffer.from(body.toString())`) enqueues the UTF-8 bytes of
the stringification `"[object FormData]"`, so consumption yields those
bytes, not the multipart encoding; `writeToStream` (body.js:591,
`body.stream.pipe(dest)`) does emit the form's multipart stream, as the
claim and the repository's passing multipart POST tests require. -/
theorem claim_C5_formdata_stream :
    ((createReadableStream []
        (.formData ⟨"B", [utf8Encode "--B-chunk"], "[object FormData]", none⟩)).1
      = [⟨[utf8Encode "[object FormData]"], false⟩]) ∧
    ((consumeBody none
        (Body.make [] (.formData ⟨"B", [utf8Encode "--B-chunk"], "[object FormData]", none⟩)
          0 0 "Body" "u" none).1
        (Body.make [] (.formData ⟨"B", [utf8Encode "--B-chunk"], "[object FormData]", none⟩)
          0 0 "Body" "u" none).2).1.outcome
      = .ok (utf8Encode "[object FormData]")) ∧
    (utf8Encode "[object FormData]" ≠ utf8Encode "--B-chunk") ∧
    (writeToStream
        (Body.make [] (.formData ⟨"B", [utf8Encode "--B-chunk"], "[object FormData]", none⟩)
          0 0 "Body" "u" none).1
        (Body.make [] (.formData ⟨"B", [utf8Encode "--B-chunk"], "[object FormData]", none⟩)
          0 0 "Body" "u" none).2
      = .ok ([utf8Encode "--B-chunk"],
          (Body.make [] (.formData ⟨"B", [utf8Encode "--B-chunk"], "[object FormData]", none⟩)
            0 0 "Body" "u" none).1,
          (Body.make [] (.formData ⟨"B", [utf8Encode "--B-chunk"], "[object FormData]", none⟩)
            0 0 "Body" "u" none).2)) := by
  refine ⟨by decide, by decide, by decide, by decide⟩

/-- **C6.** The inferred Content-Type is `text/plain;charset=UTF-8` for
string and `other` body-sources; `application/x-www-form-urlencoded;charset=UTF-8`
for url-encoded-params; the blob's own type (or none when it is empty) for
blobs; `multipart/form-data;boundary={boundary}` for form-data; and unset
(`null`) for every other body-source tag. -/
theorem claim_C6_content_type (src : BodySource) :
    extractContentType src = specContentType src := by
  cases src <;> rfl

/-- **C7.** The computed total byte count is `0` for a null source; the
UTF-8 byte length for string and `other` sources; the byte length of the
stringified form for url-encoded-params; the blob's size; the buffer's
length; `byteLength` for array-buffer and array-buffer-view; for a
form-data source its reported length when it reports one and unset (`null`)
otherwise; and unset (`null`) for stream sources. -/
theorem claim_C7_total_bytes (src : BodySource) :
    getTotalBytes src = specTotalBytes src := by
  cases src <;> rfl

theorem Heap.get_append_offset (h h' : Heap) (i : Nat) :
    (h ++ h').get (h.length + i) = h'.get i := by
  simp [Heap.get, List.getD_eq_getElem?_getD,
    List.getElem?_append_right (Nat.le_add_right h.length i)]

theorem Heap.length_set (h : Heap) (r : StreamRef) (o : StreamObj) :
    (h.set r o).length = h.length := by
  simp [Heap.set]

theorem Heap.get_pair_first (x : Heap) (o1 o2 : StreamObj) :
    (x ++ [o1, o2]).get x.length = o1 := by
  have := Heap.get_append_offset x [o1, o2] 0
  simpa using this

theorem Heap.get_pair_second (x : Heap) (o1 o2 : StreamObj) :
    (x ++ [o1, o2]).get (x.length + 1) = o2 := by
  have := Heap.get_append_offset x [o1, o2] 1
  simpa using this

/-- The heap after `consumeBody` on a fresh stream: only the body's own
stream object is touched (its reader locks it). -/
theorem consumeBody_heap (fire : Option Nat) (b : Body) (h : Heap) (ref : StreamRef)
    (c : List Bytes) (hd : b.disturbed = false) (hrs : b.readableStream = some ref)
    (hobj : h.get ref = ⟨c, false⟩) :
    (consumeBody fire b h).2.2 = h.set ref ⟨c, true⟩ := by
  rw [consumeBody_fresh fire b h ref c hd hrs hobj]

/-- Consuming two bodies backed by distinct fresh streams holding the same
chunk sequence: each consumption yields the read-loop result on those
chunks, whichever runs first (the first only locks its own stream
object). -/
theorem consume_two_fresh (b1 b2 : Body) (h : Heap) (r1 r2 : StreamRef) (c : List Bytes)
    (hne : r2 ≠ r1)
    (hd1 : b1.disturbed = false) (hrs1 : b1.readableStream = some r1)
    (hg1 : h.get r1 = ⟨c, false⟩)
    (hd2 : b2.disturbed = false) (hrs2 : b2.readableStream = some r2)
    (hg2 : h.get r2 = ⟨c, false⟩) :
    ((consumeBody none b1 h).1.outcome = consumeChunks b1.size b1.url c) ∧
    ((consumeBody none b2 (consumeBody none b1 h).2.2).1.outcome
      = consumeChunks b2.size b2.url c) := by
  refine ⟨consumeBody_none_outcome b1 h r1 c hd1 hrs1 hg1, ?_⟩
  rw [consumeBody_heap none b1 h r1 c hd1 hrs1 hg1]
  refine consumeBody_none_outcome b2 _ r2 c hd2 hrs2 ?_
  rw [Heap.get_set_ne h r1 r2 ⟨c, true⟩ hne]
  exact hg2

/-- **C8.** For every undisturbed Body with a stream-shaped body-source
(a Node stream, or a fresh WHATWG stream) carrying chunk sequence `c`,
`clone` succeeds, leaves the instance undisturbed, replaces the instance's
body-source and stream handle by one branch and returns the other, and —
wrapping the returned branch in a new Body with the same options — the
original and the clone each consume to the very read-loop result on `c`
(equal byte sequences), in either order. -/
theorem claim_C8_clone_independent (b : Body) (h : Heap) (c : List Bytes)
    (hd : b.disturbed = false)
    (hsrc : b.body = .nodeStream c ∨
      ∃ ref, b.body = .readableStream ref ∧ h.get ref = ⟨c, false⟩) :
    ∃ retSrc b' h',
      cloneBody b h = .ok (retSrc, b', h') ∧
      b'.disturbed = false ∧
      ((consumeBody none b'
          (Body.make h' retSrc b.size b.timeout b.name b.url b.contentTypeHeader).2).1.outcome
        = consumeChunks b.size b.url c) ∧
      ((consumeBody none
          (Body.make h' retSrc b.size b.timeout b.name b.url b.contentTypeHeader).1
          (consumeBody none b'
            (Body.make h' retSrc b.size b.timeout b.name b.url
              b.contentTypeHeader).2).2.2).1.outcome
        = consumeChunks b.size b.url c) ∧
      ((consumeBody none
          (Body.make h' retSrc b.size b.timeout b.name b.url b.contentTypeHeader).1
          (Body.make h' retSrc b.size b.timeout b.name b.url
            b.contentTypeHeader).2).1.outcome
        = consumeChunks b.size b.url c) ∧
      ((consumeBody none b'
          (consumeBody none
            (Body.make h' retSrc b.size b.timeout b.name b.url b.contentTypeHeader).1
            (Body.make h' retSrc b.size b.timeout b.name b.url
              b.contentTypeHeader).2).2.2).1.outcome
        = consumeChunks b.size b.url c) := by
  rcases hsrc with hns | ⟨ref, hrs, hobj⟩
  · -- Node-stream source: the body is piped into two PassThroughs; the
    -- instance gets a fresh node-to-web adapter stream, the clone another.
    refine ⟨.nodeStream c,
      { b with body := .nodeStream c, readableStream := some h.length },
      h ++ [⟨c, false⟩], ?_, hd, ?_⟩
    · unfold cloneBody
      simp [hd, hns, createReadableStream, Heap.alloc]
    · have hmk : Body.make (h ++ [⟨c, false⟩]) (.nodeStream c) b.size b.timeout b.name b.url
          b.contentTypeHeader
          = ({ body := .nodeStream c, readableStream := some (h.length + 1),
               disturbed := false, size := b.size, timeout := b.timeout, name := b.name,
               url := b.url, contentTypeHeader := b.contentTypeHeader },
             h ++ [⟨c, false⟩, ⟨c, false⟩]) := by
        simp [Body.make, createReadableStream, Heap.alloc]
      rw [hmk]
      have hg1 : (h ++ [(⟨c, false⟩ : StreamObj), ⟨c, false⟩]).get h.length = ⟨c, false⟩ :=
        Heap.get_pair_first h ⟨c, false⟩ ⟨c, false⟩
      have hg2 : (h ++ [(⟨c, false⟩ : StreamObj), ⟨c, false⟩]).get (h.length + 1)
          = ⟨c, false⟩ :=
        Heap.get_pair_second h ⟨c, false⟩ ⟨c, false⟩
      obtain ⟨o1, o2⟩ := consume_two_fresh
        { b with body := .nodeStream c, readableStream := some h.length }
        { body := .nodeStream c, readableStream := some (h.length + 1),
          disturbed := false, size := b.size, timeout := b.timeout, name := b.name,
          url := b.url, contentTypeHeader := b.contentTypeHeader }
        (h ++ [⟨c, false⟩, ⟨c, false⟩]) h.length (h.length + 1) c
        (Nat.succ_ne_self h.length) hd rfl hg1 rfl rfl hg2
      obtain ⟨o3, o4⟩ := consume_two_fresh
        { body := .nodeStream c, readableStream := some (h.length + 1),
          disturbed := false, size := b.size, timeout := b.timeout, name := b.name,
          url := b.url, contentTypeHeader := b.contentTypeHeader }
        { b with body := .nodeStream c, readableStream := some h.length }
        (h ++ [⟨c, false⟩, ⟨c, false⟩]) (h.length + 1) h.length c
        (Ne.symm (Nat.succ_ne_self h.length)) rfl rfl hg2 hd rfl hg1
      exact ⟨o1, o2, o3, o4⟩
  · -- WHATWG-stream source: `tee()` locks the original and allocates the
    -- two branches.
    refine ⟨.readableStream (h.length + 1),
      { b with body := .readableStream h.length, readableStream := some h.length },
      h.set ref ⟨c, true⟩ ++ [⟨c, false⟩, ⟨c, false⟩], ?_, hd, ?_⟩
    · unfold cloneBody
      simp [hd, hrs, hobj, Heap.alloc, Heap.length_set]
    · have hmk : Body.make (h.set ref ⟨c, true⟩ ++ [⟨c, false⟩, ⟨c, false⟩])
          (.readableStream (h.length + 1)) b.size b.timeout b.name b.url b.contentTypeHeader
          = ({ body := .readableStream (h.length + 1),
               readableStream := some (h.length + 1),
               disturbed := false, size := b.size, timeout := b.timeout, name := b.name,
               url := b.url, contentTypeHeader := b.contentTypeHeader },
             h.set ref ⟨c, true⟩ ++ [⟨c, false⟩, ⟨c, false⟩]) := by
        simp [Body.make]
      rw [hmk]
      have hsl : (h.set ref ⟨c, true⟩).length = h.length := Heap.length_set h ref ⟨c, true⟩
      have hg1 : (h.set ref ⟨c, true⟩ ++ [(⟨c, false⟩ : StreamObj), ⟨c, false⟩]).get h.length
          = ⟨c, false⟩ := by
        have := Heap.get_pair_first (h.set ref ⟨c, true⟩) ⟨c, false⟩ ⟨c, false⟩
        rwa [hsl] at this
      have hg2 : (h.set ref ⟨c, true⟩
          ++ [(⟨c, false⟩ : StreamObj), ⟨c, false⟩]).get (h.length + 1) = ⟨c, false⟩ := by
        have := Heap.get_pair_second (h.set ref ⟨c, true⟩) ⟨c, false⟩ ⟨c, false⟩
        rwa [hsl] at this
      obtain ⟨o1, o2⟩ := consume_two_fresh
        { b with body := .readableStream h.length, readableStream := some h.length }
        { body := .readableStream (h.length + 1), readableStream := some (h.length + 1),
          disturbed := false, size := b.size, timeout := b.timeout, name := b.name,
          url := b.url, contentTypeHeader := b.contentTypeHeader }
        (h.set ref ⟨c, true⟩ ++ [⟨c, false⟩, ⟨c, false⟩]) h.length (h.length + 1) c
        (Nat.succ_ne_self h.length) hd rfl hg1 rfl rfl hg2
      obtain ⟨o3, o4⟩ := consume_two_fresh
        { body := .readableStream (h.length + 1), readableStream := some (h.length + 1),
          disturbed := false, size := b.size, timeout := b.timeout, name := b.name,
          url := b.url, contentTypeHeader := b.contentTypeHeader }
        { b with body := .readableStream h.length, readableStream := some h.length }
        (h.set ref ⟨c, true⟩ ++ [⟨c, false⟩, ⟨c, false⟩]) (h.length + 1) h.length c
        (Ne.symm (Nat.succ_ne_self h.length)) rfl rfl hg2 hd rfl hg1
      exact ⟨o1, o2, o3, o4⟩

/-- Witness for C8 at a concrete input: a node-stream body with chunks
`[[1], [2, 3]]` over the empty heap. -/
theorem claim_C8_clone_independent_witness :
    ((Body.make [] (.nodeStream [[1], [2, 3]]) 0 0 "Body" "u" none).1.disturbed = false) ∧
    (∃ retSrc b' h',
      cloneBody (Body.make [] (.nodeStream [[1], [2, 3]]) 0 0 "Body" "u" none).1
          (Body.make [] (.nodeStream [[1], [2, 3]]) 0 0 "Body" "u" none).2
        = .ok (retSrc, b', h') ∧
      b'.disturbed = false ∧
      ((consumeBody none b'
          (Body.make h' retSrc (Body.make [] (.nodeStream [[1], [2, 3]]) 0 0 "Body" "u" none).1.size (Body.make [] (.nodeStream [[1], [2, 3]]) 0 0 "Body" "u" none).1.timeout (Body.make [] (.nodeStream [[1], [2, 3]]) 0 0 "Body" "u" none).1.name (Body.make [] (.nodeStream [[1], [2, 3]]) 0 0 "Body" "u" none).1.url (Body.make [] (.nodeStream [[1], [2, 3]]) 0 0 "Body" "u" none).1.contentTypeHeader).2).1.outcome
        = consumeChunks (Body.make [] (.nodeStream [[1], [2, 3]]) 0 0 "Body" "u" none).1.size (Body.make [] (.nodeStream [[1], [2, 3]]) 0 0 "Body" "u" none).1.url [[1], [2, 3]]) ∧
      ((consumeBody none
          (Body.make h' retSrc (Body.make [] (.nodeStream [[1], [2, 3]]) 0 0 "Body" "u" none).1.size (Body.make [] (.nodeStream [[1], [2, 3]]) 0 0 "Body" "u" none).1.timeout (Body.make [] (.nodeStream [[1], [2, 3]]) 0 0 "Body" "u" none).1.name (Body.make [] (.nodeStream [[1], [2, 3]]) 0 0 "Body" "u" none).1.url (Body.make [] (.nodeStream [[1], [2, 3]]) 0 0 "Body" "u" none).1.contentTypeHeader).1
          (consumeBody none b'
            (Body.make h' retSrc (Body.make [] (.nodeStream [[1], [2, 3]]) 0 0 "Body" "u" none).1.size (Body.make [] (.nodeStream [[1], [2, 3]]) 0 0 "Body" "u" none).1.timeout (Body.make [] (.nodeStream [[1], [2, 3]]) 0 0 "Body" "u" none).1.name (Body.make [] (.nodeStream [[1], [2, 3]]) 0 0 "Body" "u" none).1.url (Body.make [] (.nodeStream [[1], [2, 3]]) 0 0 "Body" "u" none).1.contentTypeHeader).2).2.2).1.outcome
        = consumeChunks (Body.make [] (.nodeStream [[1], [2, 3]]) 0 0 "Body" "u" none).1.size (Body.make [] (.nodeStream [[1], [2, 3]]) 0 0 "Body" "u" none).1.url [[1], [2, 3]]) ∧
      ((consumeBody none
          (Body.make h' retSrc (Body.make [] (.nodeStream [[1], [2, 3]]) 0 0 "Body" "u" none).1.size (Body.make [] (.nodeStream [[1], [2, 3]]) 0 0 "Body" "u" none).1.timeout (Body.make [] (.nodeStream [[1], [2, 3]]) 0 0 "Body" "u" none).1.name (Body.make [] (.nodeStream [[1], [2, 3]]) 0 0 "Body" "u" none).1.url (Body.make [] (.nodeStream [[1], [2, 3]]) 0 0 "Body" "u" none).1.contentTypeHeader).1
          (Body.make h' retSrc (Body.make [] (.nodeStream [[1], [2, 3]]) 0 0 "Body" "u" none).1.size (Body.make [] (.nodeStream [[1], [2, 3]]) 0 0 "Body" "u" none).1.timeout (Body.make [] (.nodeStream [[1], [2, 3]]) 0 0 "Body" "u" none).1.name (Body.make [] (.nodeStream [[1], [2, 3]]) 0 0 "Body" "u" none).1.url (Body.make [] (.nodeStream [[1], [2, 3]]) 0 0 "Body" "u" none).1.contentTypeHeader).2).1.outcome
        = consumeChunks (Body.make [] (.nodeStream [[1], [2, 3]]) 0 0 "Body" "u" none).1.size (Body.make [] (.nodeStream [[1], [2, 3]]) 0 0 "Body" "u" none).1.url [[1], [2, 3]]) ∧
      ((consumeBody none b'
          (consumeBody none
            (Body.make h' retSrc (Body.make [] (.nodeStream [[1], [2, 3]]) 0 0 "Body" "u" none).1.size (Body.make [] (.nodeStream [[1], [2, 3]]) 0 0 "Body" "u" none).1.timeout (Body.make [] (.nodeStream [[1], [2, 3]]) 0 0 "Body" "u" none).1.name (Body.make [] (.nodeStream [[1], [2, 3]]) 0 0 "Body" "u" none).1.url (Body.make [] (.nodeStream [[1], [2, 3]]) 0 0 "Body" "u" none).1.contentTypeHeader).1
            (Body.make h' retSrc (Body.make [] (.nodeStream [[1], [2, 3]]) 0 0 "Body" "u" none).1.size (Body.make [] (.nodeStream [[1], [2, 3]]) 0 0 "Body" "u" none).1.timeout (Body.make [] (.nodeStream [[1], [2, 3]]) 0 0 "Body" "u" none).1.name (Body.make [] (.nodeStream [[1], [2, 3]]) 0 0 "Body" "u" none).1.url (Body.make [] (.nodeStream [[1], [2, 3]]) 0 0 "Body" "u" none).1.contentTypeHeader).2).2.2).1.outcome
        = consumeChunks (Body.make [] (.nodeStream [[1], [2, 3]]) 0 0 "Body" "u" none).1.size (Body.make [] (.nodeStream [[1], [2, 3]]) 0 0 "Body" "u" none).1.url [[1], [2, 3]])) :=
  ⟨rfl, claim_C8_clone_independent _ _ [[1], [2, 3]] rfl (Or.inl rfl)⟩

/-- **C9.** For every Body with `timeout-ms > 0` backed by a fresh stream:
if the body-timeout alarm fires before consumption completes (after `k`
read callbacks, `k` before the settling read), consumption rejects with
error kind `body-timeout`; after the alarm every subsequent chunk read is
ignored (callbacks that see `timedOut` leave the state untouched); and on
every consumption outcome the scheduled timer is cleared. -/
theorem claim_C9_body_timeout (b : Body) (h : Heap) (ref : StreamRef) (c : List Bytes)
    (k : Nat) (hd : b.disturbed = false) (hrs : b.readableStream = some ref)
    (hobj : h.get ref = ⟨c, false⟩) (ht : b.timeout ≠ 0)
    (hk : k < settleReads b.size c 0) :
    ((consumeBody (some k) b h).1.outcome
      = .error (fetchErrorBodyTimeout b.url b.timeout)) ∧
    (∀ (s : LoopState) (reads : List (Option Bytes)), s.timedOut = true →
      runAfterFire b.size b.url s reads = s) ∧
    (∀ fire : Option Nat, (consumeBody fire b h).1.timerSet = true ∧
      (consumeBody fire b h).1.timerCleared = true) := by
  have htb : (b.timeout != 0) = true := by
    simpa [bne_iff_ne] using ht
  refine ⟨?_, fun s reads hts => runAfterFire_of_timedOut b.size b.url s reads hts, ?_⟩
  · rw [consumeBody_fresh (some k) b h ref c hd hrs hobj]
    simp only [htb, if_true]
    rw [show LoopState.init = (⟨[], 0, false, none⟩ : LoopState) from rfl,
      runConsume_fire_early b.size b.url b.timeout c k [] 0 hk]
    rfl
  · intro fire
    rw [consumeBody_fresh fire b h ref c hd hrs hobj]
    refine ⟨htb, ?_⟩
    simp only [htb, if_true]
    have := runConsume_settles b.size b.url b.timeout c fire
    simp [htb, this]

/-- Witness for C9 at a concrete input: a node-stream body with chunks
`[[5], [6]]`, timeout `3`, alarm firing before the first read completes. -/
theorem claim_C9_body_timeout_witness :
    ((Body.make [] (.nodeStream [[5], [6]]) 0 3 "Body" "u" none).1.disturbed = false) ∧
    ((0 : Nat) < settleReads 0 [[5], [6]] 0) ∧
    ((consumeBody (some 0) (Body.make [] (.nodeStream [[5], [6]]) 0 3 "Body" "u" none).1
        (Body.make [] (.nodeStream [[5], [6]]) 0 3 "Body" "u" none).2).1.outcome
      = .error (fetchErrorBodyTimeout "u" 3)) ∧
    (∀ fire : Option Nat,
      (consumeBody fire (Body.make [] (.nodeStream [[5], [6]]) 0 3 "Body" "u" none).1
          (Body.make [] (.nodeStream [[5], [6]]) 0 3 "Body" "u" none).2).1.timerSet = true ∧
      (consumeBody fire (Body.make [] (.nodeStream [[5], [6]]) 0 3 "Body" "u" none).1
          (Body.make [] (.nodeStream [[5], [6]]) 0 3 "Body" "u" none).2).1.timerCleared
        = true) :=
  ⟨rfl, by decide,
   (claim_C9_body_timeout (Body.make [] (.nodeStream [[5], [6]]) 0 3 "Body" "u" none).1
      (Body.make [] (.nodeStream [[5], [6]]) 0 3 "Body" "u" none).2 0 [[5], [6]] 0
      rfl rfl (by decide) (by decide) (by decide)).1,
   (claim_C9_body_timeout (Body.make [] (.nodeStream [[5], [6]]) 0 3 "Body" "u" none).1
      (Body.make [] (.nodeStream [[5], [6]]) 0 3 "Body" "u" none).2 0 [[5], [6]] 0
      rfl rfl (by decide) (by decide) (by decide)).2.2⟩

/-- **C10 (counterexample).** The claim says that after `writeToStream` on
a web-readable-stream body the disturbed flag is unchanged *and the body
can still be consumed in full*.  At the concrete input — a fresh
one-chunk stream `[[104, 105]]` — `writeToStream` tees and replaces
`INTERNALS.body` with the untouched branch (object 1) but leaves
`INTERNALS.readableStream` pointing at the original stream (object 0),
which the tee locked; the subsequent consumption therefore rejects with
the locked-stream `TypeError` instead of yielding the body. -/
theorem claim_C10_write_then_consume_counterexample :
    (writeToStream
        (Body.make [⟨[[104, 105]], false⟩] (.readableStream 0) 0 0 "Body" "u" none).1
        (Body.make [⟨[[104, 105]], false⟩] (.readableStream 0) 0 0 "Body" "u" none).2
      = .ok ([[104, 105]],
          { body := .readableStream 1, readableStream := some 0, disturbed := false,
            size := 0, timeout := 0, name := "Body", url := "u",
            contentTypeHeader := none },
          [⟨[[104, 105]], true⟩, ⟨[[104, 105]], false⟩, ⟨[[104, 105]], true⟩])) ∧
    ((consumeBody none
        { body := .readableStream 1, readableStream := some 0, disturbed := false,
          size := 0, timeout := 0, name := "Body", url := "u", contentTypeHeader := none }
        [⟨[[104, 105]], true⟩, ⟨[[104, 105]], false⟩, ⟨[[104, 105]], true⟩]).1.outcome
      = .error .streamLocked) := by
  refine ⟨by decide, by decide⟩

/-- **C10 (amended).** For every undisturbed Body whose body-source is a
fresh web readable stream, `writeToStream` tees the source and writes one
branch in full, replacing the instance's body-source — but *not* its
stream handle — with the other untouched branch; the disturbed flag is
unchanged (still false), and a new Body constructed from the replaced
body-source consumes the full byte sequence, while consuming the same
instance directly rejects, because the retained stream handle was locked
by the tee. -/
theorem claim_C10_write_to_stream_tee (b : Body) (h : Heap) (ref : StreamRef)
    (c : List Bytes) (hd : b.disturbed = false) (hb : b.body = .readableStream ref)
    (hrs : b.readableStream = some ref) (hobj : h.get ref = ⟨c, false⟩) :
    ∃ b' h',
      writeToStream b h = .ok (c, b', h') ∧
      b'.body = .readableStream h.length ∧
      b'.disturbed = false ∧
      b'.readableStream = some ref ∧
      h'.get h.length = ⟨c, false⟩ ∧
      ((consumeBody none b' h').1.outcome = .error .streamLocked) ∧
      ((consumeBody none
          (Body.make h' (.readableStream h.length) b.size b.timeout b.name b.url
            b.contentTypeHeader).1
          (Body.make h' (.readableStream h.length) b.size b.timeout b.name b.url
            b.contentTypeHeader).2).1.outcome
        = consumeChunks b.size b.url c) := by
  have href : ref < h.length := lt_length_of_unlocked (by rw [hobj])
  have hsl : (h.set ref ⟨c, true⟩).length = h.length := Heap.length_set h ref ⟨c, true⟩
  refine ⟨{ b with body := .readableStream h.length },
    h.set ref ⟨c, true⟩ ++ [⟨c, false⟩, ⟨c, true⟩], ?_, rfl, hd, hrs, ?_, ?_, ?_⟩
  · unfold writeToStream
    simp [hb, hobj, Heap.alloc, Heap.length_set]
  · have := Heap.get_pair_first (h.set ref ⟨c, true⟩) ⟨c, false⟩ ⟨c, true⟩
    rwa [hsl] at this
  · have hgref : (h.set ref ⟨c, true⟩ ++ [(⟨c, false⟩ : StreamObj), ⟨c, true⟩]).get ref
        = ⟨c, true⟩ := by
      rw [Heap.get_append_right _ _ ref (by rw [hsl]; exact href)]
      exact Heap.get_set_self h ref ⟨c, true⟩ href
    unfold consumeBody
    simp [hd, hrs, hgref]
  · have hgout : (h.set ref ⟨c, true⟩ ++ [(⟨c, false⟩ : StreamObj), ⟨c, true⟩]).get h.length
        = ⟨c, false⟩ := by
      have := Heap.get_pair_first (h.set ref ⟨c, true⟩) ⟨c, false⟩ ⟨c, true⟩
      rwa [hsl] at this
    have hmk : Body.make (h.set ref ⟨c, true⟩ ++ [⟨c, false⟩, ⟨c, true⟩])
        (.readableStream h.length) b.size b.timeout b.name b.url b.contentTypeHeader
        = ({ body := .readableStream h.length, readableStream := some h.length,
             disturbed := false, size := b.size, timeout := b.timeout, name := b.name,
             url := b.url, contentTypeHeader := b.contentTypeHeader },
           h.set ref ⟨c, true⟩ ++ [⟨c, false⟩, ⟨c, true⟩]) := by
      simp [Body.make]
    rw [hmk]
    exact consumeBody_none_outcome _ _ h.length c rfl rfl hgout

/-- Witness for the amended C10 at the concrete one-chunk stream input. -/
theorem claim_C10_write_to_stream_tee_witness :
    ((Body.make [⟨[[104, 105]], false⟩] (.readableStream 0) 0 0 "Body" "u" none).1.disturbed
      = false) ∧
    (∃ b' h',
      writeToStream
          (Body.make [⟨[[104, 105]], false⟩] (.readableStream 0) 0 0 "Body" "u" none).1
          (Body.make [⟨[[104, 105]], false⟩] (.readableStream 0) 0 0 "Body" "u" none).2
        = .ok ([[104, 105]], b', h') ∧
      b'.body = .readableStream 1 ∧
      b'.disturbed = false ∧
      b'.readableStream = some 0 ∧
      h'.get 1 = ⟨[[104, 105]], false⟩ ∧
      ((consumeBody none b' h').1.outcome = .error .streamLocked) ∧
      ((consumeBody none
          (Body.make h' (.readableStream 1) 0 0 "Body" "u" none).1
          (Body.make h' (.readableStream 1) 0 0 "Body" "u" none).2).1.outcome
        = consumeChunks 0 "u" [[104, 105]])) :=
  ⟨rfl,
   claim_C10_write_to_stream_tee
     (Body.make [⟨[[104, 105]], false⟩] (.readableStream 0) 0 0 "Body" "u" none).1
     (Body.make [⟨[[104, 105]], false⟩] (.readableStream 0) 0 0 "Body" "u" none).2
     0 [[104, 105]] rfl rfl rfl (by decide)⟩

end NodeFetch
